import Mathlib

/-!
Shallow embedding of `src/src/main.c` (the WASM button challenge).

The program is a 7-stage digit-verification chain driven through the
browser's `window.console.log` slot (the observation hook).  The C handlers
are `__syscall80` (stage 1, dispatching through `g_func_ptr` to
`call_me_indirectly`), `__syscall72` (stage 2, digit 9), `__syscall42`
(stage 3, digit 4), `__syscall18` (stage 4, digit 7), `the_end` (stage 5,
digit 4 plus the anti-automation timer), `__syscall12` (stage 6, digit 8)
and `__syscall188` (stage 7, digit 2).  `hello` is the reset routine and
the integrity guard host: it runs `debugger_check` and the source-text
comparison of `ASM_CONSTS[0]`, and on a clean outcome saves the current
`console.log` into `console.assert` and installs the stage-1 handler.

Environment-determined observations (whether the `debugger;` statement
stalled, whether the guard source text still matches, the current wall
clock) are passed in as a `GuardEnv` per processed input.  The embedded
WASM validator modules are represented by their documented predicate
semantics (`oh_no` / `wetsand` / `lolwat`); the byte payloads and the XOR
codec that obscures two of them are embedded as well.  Counters record
externally observable events: success alerts, sandbox traps, guard
invocations, guard source re-validations, and runs of the stage-5
validator.
-/

/-- What `window.console.log` currently points at: the browser's original
`console.log` / `console.assert`, or one of the seven stage handlers
(`s1` = `__syscall80`, ..., `s5` = `the_end`, ..., `s7` = `__syscall188`). -/
inductive Hook where
  | origLog
  | origAssert
  | s1
  | s2
  | s3
  | s4
  | s5
  | s6
  | s7
deriving DecidableEq, Repr

/-- The per-input environment observations: `paused` is whether the JS
`debugger;` statement stalled (`(after - before) != 0`), `srcOk` is whether
`ASM_CONSTS[0].toString()` equals the expected literal
`"function()\x7bdebugger\x7d"`, and `now` is `time(NULL)`. -/
structure GuardEnv where
  paused : Bool
  srcOk : Bool
  now : Int
deriving DecidableEq, Repr

/-- The observable state of the program: the two console slots, the three
C globals (`log_stored`, `first_press`, `g_func_ptr` — modelled as a Bool,
`false` being the null pointer), and event counters for the success alert,
sandbox traps (`unreachable` executed in a module), `debugger_check`
invocations, guard source-text comparisons, and stage-5 validator runs. -/
structure SysState where
  consoleLog : Hook
  consoleAssert : Hook
  logStored : Bool
  firstPress : Int
  gFuncPtr : Bool
  alerts : Nat
  traps : Nat
  guardCalls : Nat
  srcChecks : Nat
  stage5Runs : Nat
deriving DecidableEq, Repr

/-- `debugger_check` (main.c:81): time the `debugger;` statement; if it
stalled, restore `console.log` from `console.assert` when `log_stored`
is set, and report detection. -/
def debugger_check (env : GuardEnv) (s : SysState) : Bool × SysState :=
  let s := { s with guardCalls := s.guardCalls + 1 }
  if env.paused then
    (true, if s.logStored then { s with consoleLog := s.consoleAssert } else s)
  else
    (false, s)

/-- `hello` (main.c:115): run `debugger_check`; if clean, compare the
source text of `ASM_CONSTS[0]` against the expected literal; on mismatch
restore `console.log` from `console.assert` (when `log_stored`); on a
fully clean outcome set `log_stored`, save the current `console.log` into
`console.assert`, and point `console.log` at `__syscall80`. -/
def hello (env : GuardEnv) (s : SysState) : SysState :=
  let r := debugger_check env s
  if r.1 then
    r.2
  else
    let s := { r.2 with srcChecks := r.2.srcChecks + 1 }
    if env.srcOk = false then
      if s.logStored then { s with consoleLog := s.consoleAssert } else s
    else
      { s with logStored := true, consoleAssert := s.consoleLog, consoleLog := Hook.s1 }

/-- `call_me_indirectly` (main.c:163): if the digit is 1 point
`console.log` at `__syscall72`, otherwise reset via `hello`. -/
def call_me_indirectly (v : Nat) (env : GuardEnv) (s : SysState) : SysState :=
  if v = 1 then
    { s with consoleLog := Hook.s2 }
  else
    hello env s

/-- `__syscall80` (main.c:185), the stage-1 handler: run `debugger_check`
(returning on detection), record `first_press = time(NULL)`, then call
through `g_func_ptr`.  `g_func_ptr` is null until `main` assigns it, and
calling a null function pointer is undefined (a WASM indirect-call trap):
that outcome is `none`. -/
def syscall80 (v : Nat) (env : GuardEnv) (s : SysState) : Option SysState :=
  let r := debugger_check env s
  if r.1 then
    some r.2
  else
    let s := { r.2 with firstPress := env.now }
    if s.gFuncPtr then some (call_me_indirectly v env s) else none

/-- Semantics of the stage-2 WASM module `oh_no` (main.c:212): is the
pressed key 9? -/
def oh_no72 (v : Nat) : Nat :=
  if v = 9 then 1 else 0

/-- `__syscall72` (main.c:207), the stage-2 handler: run the embedded
module on the digit; on 1 install `__syscall42`, otherwise reset. -/
def syscall72 (v : Nat) (env : GuardEnv) (s : SysState) : SysState :=
  if oh_no72 v = 1 then
    { s with consoleLog := Hook.s3 }
  else
    hello env s

/-- Semantics of the stage-3 WASM module `_oh_no` (main.c:259): is the
pressed key 4? -/
def oh_no42 (v : Nat) : Nat :=
  if v = 4 then 1 else 0

/-- `__syscall42` (main.c:256), the stage-3 handler: run the embedded
module on the digit; on 1 install `__syscall18`, otherwise reset. -/
def syscall42 (v : Nat) (env : GuardEnv) (s : SysState) : SysState :=
  if oh_no42 v = 1 then
    { s with consoleLog := Hook.s4 }
  else
    hello env s

/-- The XOR codec (main.c:334 and the spec's 4.3 contract): per-byte XOR
with a single-byte key, masked to byte width. -/
def decode (bytes : List Nat) (key : Nat) : List Nat :=
  bytes.map fun b => (b ^^^ key) &&& 0xff

/-- The obfuscated stage-4 payload (main.c:321), 97 bytes, XOR key `0xaa`. -/
def stage4Wasm : List Nat :=
  [170, 203, 217, 199, 171, 170, 170, 170, 171, 44, 42, 42, 42, 170, 171, 202,
   171, 213, 171, 213, 169, 40, 42, 42, 42, 170, 171, 170, 174, 46, 42, 42,
   42, 170, 171, 218, 170, 170, 175, 41, 42, 42, 42, 170, 171, 170, 171, 172,
   43, 42, 42, 42, 170, 170, 173, 56, 42, 42, 42, 170, 168, 172, 199, 207,
   199, 197, 216, 211, 168, 170, 175, 197, 194, 245, 196, 197, 170, 170, 160, 39,
   42, 42, 42, 170, 171, 45, 42, 42, 42, 170, 170, 138, 170, 235, 173, 236,
   161]

/-- Semantics of the decoded stage-4 WASM module `oh_no` (main.c:313): is
the pressed key 7? -/
def oh_no18 (v : Nat) : Nat :=
  if v = 7 then 1 else 0

/-- `__syscall18` (main.c:311), the stage-4 handler: XOR-decode the
payload with key `0xaa`, run it on the digit; on 1 install `the_end`,
otherwise reset. -/
def syscall18 (v : Nat) (env : GuardEnv) (s : SysState) : SysState :=
  if oh_no18 v = 1 then
    { s with consoleLog := Hook.s5 }
  else
    hello env s

/-- Semantics of the `xor_decode` module's export `lolwat` (main.c:397):
`test ^ 0xbb`, masked to a byte when stored back into the `Uint8Array`. -/
def lolwat (x : Nat) : Nat :=
  (x ^^^ 0xbb) &&& 0xff

/-- The obfuscated stage-5 payload `wasmCode` (main.c:419), decoded byte
by byte through the `lolwat` oracle before instantiation. -/
def stage5Wasm : List Nat :=
  [187, 218, 200, 214, 186, 187, 187, 187, 186, 61, 59, 59, 59, 187, 186, 219,
   186, 196, 186, 196, 184, 57, 59, 59, 59, 187, 186, 187, 191, 63, 59, 59,
   59, 187, 186, 203, 187, 187, 190, 56, 59, 59, 59, 187, 186, 187, 186, 189,
   58, 59, 59, 59, 187, 187, 188, 47, 59, 59, 59, 187, 185, 189, 214, 222,
   214, 212, 201, 194, 185, 187, 188, 204, 222, 207, 200, 218, 213, 223, 187, 187,
   177, 54, 59, 59, 59, 187, 186, 60, 59, 59, 59, 187, 187, 155, 187, 250,
   191, 253, 176]

/-- Semantics of the decoded stage-5 WASM module `wetsand` (main.c:412):
is the pressed key 4? -/
def wetsand (v : Nat) : Nat :=
  if v = 4 then 1 else 0

/-- `the_end` (main.c:388), the stage-5 handler.  `result` starts at 0 and
the validator only runs when `(time(NULL) - first_press) > 1`.  On
`result == 1` install `__syscall12`.  Otherwise restore `console.log` from
`console.assert` and execute the `__lol_wasm` module, whose body is the
`unreachable` opcode: the trap is thrown and swallowed by the `catch`, and
the `alert` after the call is dead code. -/
def the_end (v : Nat) (env : GuardEnv) (s : SysState) : SysState :=
  let are_you_a_bot := env.now
  let p : Nat × SysState :=
    if are_you_a_bot - s.firstPress > 1 then
      (wetsand v, { s with stage5Runs := s.stage5Runs + 1 })
    else
      (0, s)
  if p.1 = 1 then
    { p.2 with consoleLog := Hook.s6 }
  else
    { p.2 with consoleLog := p.2.consoleAssert, traps := p.2.traps + 1 }

/-- `__syscall12` (main.c:506), the stage-6 handler: bit-manipulation
check isolating 8; on success install `__syscall188`, otherwise reset. -/
def syscall12 (v : Nat) (env : GuardEnv) (s : SysState) : SysState :=
  if v &&& 0x03 = 0 ∧ v &&& 0x04 = 0 ∧ v >>> 3 = 1 then
    { s with consoleLog := Hook.s7 }
  else
    hello env s

/-- `__syscall188` (main.c:532), the stage-7 handler: on digit 2 run the
base64'd success `alert`, then reset via `hello` unconditionally. -/
def syscall188 (v : Nat) (env : GuardEnv) (s : SysState) : SysState :=
  let s := if v = 2 then { s with alerts := s.alerts + 1 } else s
  hello env s

/-- One input delivered to `window.console.log`: dispatch to whichever
handler the hook currently points at.  The browser's original
`console.log` / `console.assert` do not reach the WASM machine at all.
`none` is the null-`g_func_ptr` trap inside `__syscall80`. -/
def dispatch (s : SysState) (v : Nat) (env : GuardEnv) : Option SysState :=
  match s.consoleLog with
  | Hook.origLog => some s
  | Hook.origAssert => some s
  | Hook.s1 => syscall80 v env s
  | Hook.s2 => some (syscall72 v env s)
  | Hook.s3 => some (syscall42 v env s)
  | Hook.s4 => some (syscall18 v env s)
  | Hook.s5 => some (the_end v env s)
  | Hook.s6 => some (syscall12 v env s)
  | Hook.s7 => some (syscall188 v env s)

/-- Feed a sequence of inputs, each with its environment observations. -/
def run (s : SysState) : List (Nat × GuardEnv) → Option SysState
  | [] => some s
  | (v, env) :: rest =>
    match dispatch s v env with
    | none => none
    | some s' => run s' rest

/-- The state at process start, before `hello` runs: both console slots
are the browser's own functions, `log_stored = 0`, `first_press = 0`,
`g_func_ptr = 0` (null). -/
def initState : SysState :=
  { consoleLog := Hook.origLog
    consoleAssert := Hook.origAssert
    logStored := false
    firstPress := 0
    gFuncPtr := false
    alerts := 0
    traps := 0
    guardCalls := 0
    srcChecks := 0
    stage5Runs := 0 }

/-- `main` (main.c:543): the launch contract requires `argc == 1` and
`argv[0] == "./this.program"`; on violation restore `console.log` from
`console.assert` (and the JS side exits); otherwise store 1 — the table
index of `call_me_indirectly` — into `g_func_ptr`. -/
def mainInit (argc : Nat) (argv0 : String) (s : SysState) : SysState :=
  if argc ≠ 1 ∨ argv0 ≠ "./this.program" then
    { s with consoleLog := s.consoleAssert }
  else
    { s with gFuncPtr := true }

/-- A clean-guard environment at wall-clock time `t`: the `debugger;`
statement did not stall and the guard source text matches. -/
def cleanAt (t : Int) : GuardEnv :=
  { paused := false, srcOk := true, now := t }

/-- The state after start-up on a clean environment: `hello` runs before
`main` (it is the `EMSCRIPTEN_KEEPALIVE` pre-main hook installer), then
`main` passes the launch contract. -/
def bootState : SysState :=
  mainInit 1 "./this.program" (hello (cleanAt 0) initState)

/-- The clean input sequence leading up to stage 5: digits 1, 9, 4, 7 at
time 0. -/
def seqFour : List (Nat × GuardEnv) :=
  [(1, cleanAt 0), (9, cleanAt 0), (4, cleanAt 0), (7, cleanAt 0)]

/-- The canonical stage-5 state: `bootState` after the clean prefix
1, 9, 4, 7 at time 0. -/
def s5c : SysState :=
  { consoleLog := Hook.s5
    consoleAssert := Hook.origLog
    logStored := true
    firstPress := 0
    gFuncPtr := true
    alerts := 0
    traps := 0
    guardCalls := 2
    srcChecks := 1
    stage5Runs := 0 }

/-- The full winning input sequence of the C1 scenario: 1, 9, 4, 7 at
time 0, then 4, 8, 2 at time `t` (the wait before the fifth digit). -/
def winSeq (t : Int) : List (Nat × GuardEnv) :=
  [(1, cleanAt 0), (9, cleanAt 0), (4, cleanAt 0), (7, cleanAt 0),
   (4, cleanAt t), (8, cleanAt t), (2, cleanAt t)]

/-- The first six inputs of the winning sequence. -/
def winSeqSix (t : Int) : List (Nat × GuardEnv) :=
  [(1, cleanAt 0), (9, cleanAt 0), (4, cleanAt 0), (7, cleanAt 0),
   (4, cleanAt t), (8, cleanAt t)]

/-- The canonical stage-2 state: `bootState` after the clean input 1 at
time 0. -/
def s2c : SysState :=
  { consoleLog := Hook.s2
    consoleAssert := Hook.origLog
    logStored := true
    firstPress := 0
    gFuncPtr := true
    alerts := 0
    traps := 0
    guardCalls := 2
    srcChecks := 1
    stage5Runs := 0 }

/-- The canonical stage-7 state: `bootState` after the clean inputs
1, 9, 4, 7 at time 0 and 4, 8 at time 2. -/
def s7c : SysState :=
  { consoleLog := Hook.s7
    consoleAssert := Hook.origLog
    logStored := true
    firstPress := 0
    gFuncPtr := true
    alerts := 0
    traps := 0
    guardCalls := 2
    srcChecks := 1
    stage5Runs := 1 }

/-- Fidelity check: XOR-decoding the stage-4 payload with key `0xaa`
yields a byte stream starting with the WASM magic and version. -/
theorem stage4_payload_decodes : (decode stage4Wasm 0xaa).take 8 = [0, 97, 115, 109, 1, 0, 0, 0] := by
  decide

/-- Fidelity check: feeding each byte of the stage-5 payload through the
`lolwat` oracle is exactly the XOR codec with key `0xbb`, and the result
starts with the WASM magic and version. -/
theorem stage5_oracle_is_codec : stage5Wasm.map lolwat = decode stage5Wasm 0xbb ∧
    (stage5Wasm.map lolwat).take 8 = [0, 97, 115, 109, 1, 0, 0, 0] := by
  constructor
  · decide
  · decide

/-- A clean (no pause, source intact) guard pass through `hello` bumps
both guard counters, saves the current hook into `console.assert`, and
installs the stage-1 handler. -/
theorem hello_clean (env : GuardEnv) (s : SysState) (hp : env.paused = false)
    (hs : env.srcOk = true) :
    hello env s = { s with logStored := true, consoleAssert := s.consoleLog,
                           consoleLog := Hook.s1, guardCalls := s.guardCalls + 1,
                           srcChecks := s.srcChecks + 1 } := by
  simp [hello, debugger_check, hp, hs]

/-- `hello` never touches `first_press`. -/
theorem hello_firstPress (env : GuardEnv) (s : SysState) :
    (hello env s).firstPress = s.firstPress := by
  unfold hello debugger_check
  by_cases hp : env.paused <;> by_cases hs : env.srcOk <;>
    by_cases hl : s.logStored <;> simp [hp, hs, hl]

/-- `hello` never touches `g_func_ptr`. -/
theorem hello_gFuncPtr (env : GuardEnv) (s : SysState) :
    (hello env s).gFuncPtr = s.gFuncPtr := by
  unfold hello debugger_check
  by_cases hp : env.paused <;> by_cases hs : env.srcOk <;>
    by_cases hl : s.logStored <;> simp [hp, hs, hl]

/-- The `__syscall12` bit test `(v & 3) == 0 && (v & 4) == 0 && (v >> 3) == 1`
isolates exactly the digit 8. -/
theorem syscall12_cond (v : Nat) :
    (v &&& 0x03 = 0 ∧ v &&& 0x04 = 0 ∧ v >>> 3 = 1) ↔ v = 8 := by
  constructor
  · rintro ⟨h1, h2, h3⟩
    rw [Nat.shiftRight_eq_div_pow] at h3
    norm_num at h3
    have hv1 : 8 ≤ v := by omega
    have hv2 : v < 16 := by omega
    interval_cases v <;> simp_all
  · rintro rfl
    decide

/-- One byte through the XOR codec twice with the same single-byte key is
the identity. -/
theorem byte_xor_involutive (b k : Nat) (hb : b < 256) (hk : k < 256) :
    ((b ^^^ k) &&& 0xff ^^^ k) &&& 0xff = b := by
  have h8 : (256 : Nat) = 2 ^ 8 := by norm_num
  have h1 : b ^^^ k < 2 ^ 8 := Nat.xor_lt_two_pow (h8 ▸ hb) (h8 ▸ hk)
  have e1 : (b ^^^ k) &&& 0xff = b ^^^ k := by
    have h := Nat.and_pow_two_sub_one_of_lt_two_pow h1
    norm_num at h
    exact h
  rw [e1, Nat.xor_cancel_right]
  have h := Nat.and_pow_two_sub_one_of_lt_two_pow (h8 ▸ hb)
  norm_num at h
  exact h

/-- C1: for the exact input sequence 1, 9, 4, 7, then after a wait of more
than 1 time-unit since the stage-1 press the digits 4, 8, 2, all fed with
the guard reporting clean, the system reaches the stage-7 handler
(Terminal-Success) and the success alert (`notify`) fires exactly once. -/
theorem c1_winning_sequence (t : Int) (ht : 1 < t) :
    (run bootState (winSeqSix t)).map SysState.consoleLog = some Hook.s7 ∧
    (run bootState (winSeq t)).map SysState.alerts = some 1 := by
  have hcond : (cleanAt t).now - s5c.firstPress > 1 := by
    simp only [cleanAt, s5c]
    omega
  have h5 : the_end 4 (cleanAt t) s5c =
      { s5c with consoleLog := Hook.s6, stage5Runs := 1 } := by
    simp only [the_end]
    rw [if_pos hcond]
    rfl
  constructor
  · have e1 : run bootState (winSeqSix t) =
        run (the_end 4 (cleanAt t) s5c) [(8, cleanAt t)] := rfl
    rw [e1, h5]
    rfl
  · have e2 : run bootState (winSeq t) =
        run (the_end 4 (cleanAt t) s5c) [(8, cleanAt t), (2, cleanAt t)] := rfl
    rw [e2, h5]
    rfl

/-- Witness for C1: the winning sequence with a 2-time-unit wait. -/
theorem c1_winning_sequence_witness :
    (run bootState (winSeqSix 2)).map SysState.consoleLog = some Hook.s7 ∧
    (run bootState (winSeq 2)).map SysState.alerts = some 1 :=
  c1_winning_sequence 2 (by decide)

/-- C2 counterexample: reaching `the_end` too fast and failing does not
install a hook that traps when invoked — the failure branch sets
`console.log` back to the saved original `console.log` (the trap module
runs once during the failure itself), and invoking the restored hook
afterwards neither traps nor changes any state. -/
theorem c2_counterexample :
    run bootState seqFour = some s5c ∧
    the_end 4 (cleanAt 0) s5c = { s5c with consoleLog := Hook.origLog, traps := 1 } ∧
    Hook.origLog ≠ Hook.s1 ∧
    dispatch { s5c with consoleLog := Hook.origLog, traps := 1 } 4 (cleanAt 9) =
      some { s5c with consoleLog := Hook.origLog, traps := 1 } := by
  decide

/-- C2 amended: every failed check at the `the_end` boundary — a too-fast
arrival (elapsed time at most 1, any digit, validator skipped) just as an
ordinary non-match with the timer satisfied (wrong digit, validator run
once) — is terminal and silent: the handler executes the trap module once
inside the sandbox, sets `console.log` to the saved `console.assert`
instead of resetting to Stage1, and when that saved value is the
browser's original `console.log` no further input reaches the state
machine until restart. -/
theorem c2_amended (v : Nat) (env : GuardEnv) (s : SysState)
    (hfail : ¬env.now - s.firstPress > 1 ∨ wetsand v ≠ 1)
    (ha : s.consoleAssert = Hook.origLog) :
    the_end v env s =
      { s with consoleLog := Hook.origLog, traps := s.traps + 1,
               stage5Runs := if env.now - s.firstPress > 1 then s.stage5Runs + 1
                             else s.stage5Runs } ∧
    ∀ (w : Nat) (e : GuardEnv),
      dispatch { s with consoleLog := Hook.origLog, traps := s.traps + 1,
                        stage5Runs := if env.now - s.firstPress > 1 then s.stage5Runs + 1
                                      else s.stage5Runs } w e =
        some { s with consoleLog := Hook.origLog, traps := s.traps + 1,
                      stage5Runs := if env.now - s.firstPress > 1 then s.stage5Runs + 1
                                    else s.stage5Runs } := by
  constructor
  · by_cases hc : env.now - s.firstPress > 1
    · have hw : wetsand v ≠ 1 := by
        rcases hfail with h | h
        · exact absurd hc h
        · exact h
      simp only [the_end]
      simp [hc, hw, ha]
    · simp only [the_end]
      simp [hc, ha]
  · intro w e
    rfl

/-- Witness for C2's amended theorem: the canonical stage-5 state, the
wrong digit 5 with the timer satisfied (elapsed time 5). -/
theorem c2_amended_witness :
    the_end 5 (cleanAt 5) s5c =
      { s5c with consoleLog := Hook.origLog, traps := s5c.traps + 1,
                 stage5Runs := if (cleanAt 5).now - s5c.firstPress > 1 then s5c.stage5Runs + 1
                               else s5c.stage5Runs } :=
  (c2_amended 5 (cleanAt 5) s5c (Or.inr (by decide)) (by decide)).1

/-- C3 counterexample: at stage 5 a wrong digit (5, with the guard clean
and the timer satisfied) does not return the hook to Stage1 — the hook
becomes the saved original `console.log`. -/
theorem c3_counterexample :
    run bootState seqFour = some s5c ∧
    the_end 5 (cleanAt 5) s5c =
      { s5c with consoleLog := Hook.origLog, traps := 1, stage5Runs := 1 } ∧
    Hook.origLog ≠ Hook.s1 := by
  decide

/-- C3 amended: for every stage N with N ≥ 2 other than stage 5, a wrong
digit processed with the guard clean sends the hook back to Stage1's
handler; stage 5's wrong-digit path is the terminal branch instead. -/
theorem c3_amended (v : Nat) (env : GuardEnv) (s : SysState)
    (hp : env.paused = false) (hs : env.srcOk = true) :
    (v ≠ 9 → (syscall72 v env s).consoleLog = Hook.s1) ∧
    (v ≠ 4 → (syscall42 v env s).consoleLog = Hook.s1) ∧
    (v ≠ 7 → (syscall18 v env s).consoleLog = Hook.s1) ∧
    (v ≠ 8 → (syscall12 v env s).consoleLog = Hook.s1) ∧
    (v ≠ 2 → (syscall188 v env s).consoleLog = Hook.s1) := by
  refine ⟨fun hv => ?_, fun hv => ?_, fun hv => ?_, fun hv => ?_, fun hv => ?_⟩
  · rw [syscall72, if_neg (by simp [oh_no72, hv]), hello_clean env s hp hs]
  · rw [syscall42, if_neg (by simp [oh_no42, hv]), hello_clean env s hp hs]
  · rw [syscall18, if_neg (by simp [oh_no18, hv]), hello_clean env s hp hs]
  · rw [syscall12, if_neg (fun h => hv ((syscall12_cond v).mp h)),
        hello_clean env s hp hs]
  · rw [syscall188]
    simp only [if_neg hv]
    rw [hello_clean env s hp hs]

/-- Witness for C3's amended theorem: digit 0 at stage 2 from the boot
state with a clean guard. -/
theorem c3_amended_witness :
    (syscall72 0 (cleanAt 0) bootState).consoleLog = Hook.s1 :=
  (c3_amended 0 (cleanAt 0) bootState rfl rfl).1 (by decide)

/-- C4 counterexample: with an inspector attached (the `debugger;`
statement stalls), a stage-2 input still runs the validator and advances
to stage 3 with the guard-invocation counter unchanged — the guard is not
invoked before stage 2's validator. -/
theorem c4_counterexample :
    run bootState [(1, cleanAt 0)] = some s2c ∧
    dispatch s2c 9 { paused := true, srcOk := true, now := 0 } =
      some { s2c with consoleLog := Hook.s3 } ∧
    ({ s2c with consoleLog := Hook.s3 } : SysState).guardCalls = s2c.guardCalls := by
  decide

/-- C4 amended: the guard runs before the validator only on stage-1
inputs; every clean reset (`hello`) re-invokes the guard and re-compares
its source text, but successful checks at stages 2, 3, 4 and 6 and every
stage-5 input run their validators without any guard invocation, and
stage 7 invokes the guard only after its own check, as part of the
post-alert reset. -/
theorem c4_amended (env : GuardEnv) (s : SysState)
    (hp : env.paused = false) (hs : env.srcOk = true) (hg : s.gFuncPtr = true) :
    (syscall80 1 env s).map SysState.guardCalls = some (s.guardCalls + 1) ∧
    (hello env s).guardCalls = s.guardCalls + 1 ∧
    (hello env s).srcChecks = s.srcChecks + 1 ∧
    (syscall72 9 env s).guardCalls = s.guardCalls ∧
    (syscall42 4 env s).guardCalls = s.guardCalls ∧
    (syscall18 7 env s).guardCalls = s.guardCalls ∧
    (∀ w : Nat, (the_end w env s).guardCalls = s.guardCalls) ∧
    (syscall12 8 env s).guardCalls = s.guardCalls ∧
    (syscall188 2 env s).guardCalls = s.guardCalls + 1 := by
  refine ⟨?_, ?_, ?_, ?_, ?_, ?_, ?_, ?_, ?_⟩
  · simp [syscall80, debugger_check, call_me_indirectly, hp, hg]
  · rw [hello_clean env s hp hs]
  · rw [hello_clean env s hp hs]
  · rfl
  · rfl
  · rfl
  · intro w
    by_cases hc : env.now - s.firstPress > 1 <;> by_cases hw : w = 4 <;>
      simp [the_end, wetsand, hc, hw]
  · rfl
  · rw [syscall188]
    rw [if_pos (show (2 : Nat) = 2 from rfl)]
    rw [hello_clean env { s with alerts := s.alerts + 1 } hp hs]

/-- Witness for C4's amended theorem: the boot state with a clean
environment. -/
theorem c4_amended_witness :
    (syscall72 9 (cleanAt 0) bootState).guardCalls = bootState.guardCalls :=
  (c4_amended (cleanAt 0) bootState rfl rfl rfl).2.2.2.1

/-- C5 counterexample: at stage 1 with an inspector detected, the next
state's hook is the saved original `console.log`, not Stage1's handler —
detection disarms the hook rather than resetting to Stage1. -/
theorem c5_counterexample :
    dispatch bootState 1 { paused := true, srcOk := true, now := 7 } =
      some { bootState with consoleLog := Hook.origLog,
                            guardCalls := bootState.guardCalls + 1 } ∧
    Hook.origLog ≠ Hook.s1 := by
  decide

/-- C5 amended: when the guard actually runs (stage-1 inputs and resets)
and reports inspector-detected or tampered, the pending input is discarded
— no validator runs and `first_press` is not recorded — and the hook is
set to the saved `console.assert` (disarmed), not to Stage1; at stages
2–7 the guard does not run on the input path at all. -/
theorem c5_amended (v : Nat) (env : GuardEnv) (s : SysState) (hl : s.logStored = true) :
    (env.paused = true →
      syscall80 v env s =
        some { s with consoleLog := s.consoleAssert, guardCalls := s.guardCalls + 1 } ∧
      hello env s = { s with consoleLog := s.consoleAssert, guardCalls := s.guardCalls + 1 }) ∧
    (env.paused = false → env.srcOk = false →
      hello env s = { s with consoleLog := s.consoleAssert, guardCalls := s.guardCalls + 1,
                             srcChecks := s.srcChecks + 1 }) := by
  refine ⟨fun hp => ⟨?_, ?_⟩, fun hp hs => ?_⟩
  · simp [syscall80, debugger_check, hp, hl]
  · simp [hello, debugger_check, hp, hl]
  · simp [hello, debugger_check, hp, hs, hl]

/-- Witness for C5's amended theorem: the boot state, digit 3, inspector
attached. -/
theorem c5_amended_witness :
    syscall80 3 { paused := true, srcOk := true, now := 0 } bootState =
      some { bootState with consoleLog := bootState.consoleAssert,
                            guardCalls := bootState.guardCalls + 1 } :=
  ((c5_amended 3 { paused := true, srcOk := true, now := 0 } bootState rfl).1 rfl).1

/-- C6 counterexample: arriving at `the_end` with elapsed time exactly 1
(not greater than 1) and the correct digit 4 does skip the validator, but
the outcome is the terminal branch — the hook becomes the saved original
`console.log`, not a full Reset back to Stage1. -/
theorem c6_counterexample :
    run bootState seqFour = some s5c ∧
    the_end 4 (cleanAt 1) s5c = { s5c with consoleLog := Hook.origLog, traps := 1 } ∧
    Hook.origLog ≠ Hook.s1 := by
  decide

/-- C6 amended: at the `the_end` boundary with elapsed time at most 1 the
validator is never invoked (the stage-5 run counter is unchanged) and the
stage is treated as failed via the terminal branch: the hook becomes the
saved `console.assert` and the trap module runs once — not a Stage1
reset. -/
theorem c6_amended (v : Nat) (env : GuardEnv) (s : SysState)
    (hslow : env.now - s.firstPress ≤ 1) :
    the_end v env s = { s with consoleLog := s.consoleAssert, traps := s.traps + 1 } ∧
    (the_end v env s).stage5Runs = s.stage5Runs := by
  have hc : ¬env.now - s.firstPress > 1 := by omega
  constructor
  · simp only [the_end]
    rw [if_neg hc]
    rfl
  · simp only [the_end]
    rw [if_neg hc]
    rfl

/-- Witness for C6's amended theorem: the canonical stage-5 state, digit
4, elapsed time 1. -/
theorem c6_amended_witness :
    the_end 4 (cleanAt 1) s5c =
      { s5c with consoleLog := s5c.consoleAssert, traps := s5c.traps + 1 } :=
  (c6_amended 4 (cleanAt 1) s5c (by decide)).1

/-- C7 counterexample: after the stage-7 success (digit 2, guard clean)
the success alert fires, but a further hook is installed — `hello` resets
the chain to Stage1's handler — and the next input is processed and
advances the machine to stage 2. -/
theorem c7_counterexample :
    run bootState (winSeqSix 2) = some s7c ∧
    dispatch s7c 2 (cleanAt 2) =
      some { s7c with alerts := 1, consoleAssert := Hook.s7, consoleLog := Hook.s1,
                      guardCalls := 3, srcChecks := 2 } ∧
    dispatch { s7c with alerts := 1, consoleAssert := Hook.s7, consoleLog := Hook.s1,
                        guardCalls := 3, srcChecks := 2 } 1 (cleanAt 9) =
      some { s7c with alerts := 1, consoleAssert := Hook.s7, consoleLog := Hook.s2,
                      guardCalls := 4, srcChecks := 2, firstPress := 9 } := by
  decide

/-- C7 amended: a stage-7 success (digit 2 with the guard clean) fires
the success alert exactly once and then performs a full reset via
`hello`: Stage1's handler is re-installed as the hook and the chain
restarts rather than terminating. -/
theorem c7_amended (env : GuardEnv) (s : SysState)
    (hp : env.paused = false) (hs : env.srcOk = true) :
    (syscall188 2 env s).alerts = s.alerts + 1 ∧
    (syscall188 2 env s).consoleLog = Hook.s1 := by
  rw [syscall188]
  rw [if_pos (show (2 : Nat) = 2 from rfl)]
  rw [hello_clean env { s with alerts := s.alerts + 1 } hp hs]
  exact ⟨rfl, rfl⟩

/-- Witness for C7's amended theorem: the canonical stage-7 state with a
clean guard. -/
theorem c7_amended_witness :
    (syscall188 2 (cleanAt 2) s7c).alerts = s7c.alerts + 1 ∧
    (syscall188 2 (cleanAt 2) s7c).consoleLog = Hook.s1 :=
  c7_amended (cleanAt 2) s7c rfl rfl

/-- C8 counterexample: a failed stage-1 attempt (digit 5, guard clean)
still overwrites `first_press` with the current time — the timestamp is
not recorded only on stage-1 success. -/
theorem c8_counterexample :
    bootState.firstPress = 0 ∧
    (dispatch bootState 5 (cleanAt 42)).map SysState.firstPress = some 42 := by
  decide

/-- C8 amended: `first_press` is set to the current time on every stage-1
input that passes the debugger check — before validation, whether or not
the digit is correct — and resets via `hello` never modify it; it is
simply overwritten by the next stage-1 press. -/
theorem c8_amended (v : Nat) (env : GuardEnv) (s : SysState)
    (hp : env.paused = false) (hg : s.gFuncPtr = true) :
    (syscall80 v env s).map SysState.firstPress = some env.now ∧
    ∀ (e : GuardEnv) (s' : SysState), (hello e s').firstPress = s'.firstPress := by
  constructor
  · by_cases hv : v = 1 <;>
      simp [syscall80, debugger_check, call_me_indirectly, hello_firstPress, hp, hg, hv]
  · intro e s'
    exact hello_firstPress e s'

/-- Witness for C8's amended theorem: a failed stage-1 press (digit 5) at
time 42 from the boot state. -/
theorem c8_amended_witness :
    (syscall80 5 (cleanAt 42) bootState).map SysState.firstPress = some (cleanAt 42).now :=
  (c8_amended 5 (cleanAt 42) bootState rfl rfl).1

/-- C9: the XOR codec is involutive — decoding twice with the same
single-byte key returns the original byte sequence. -/
theorem c9_decode_involutive (bytes : List Nat) (key : Nat)
    (hb : ∀ b ∈ bytes, b < 256) (hk : key < 256) :
    decode (decode bytes key) key = bytes := by
  induction bytes with
  | nil => rfl
  | cons b bs ih =>
    have hb0 : b < 256 := hb b (List.mem_cons_self b bs)
    have hbs : ∀ x ∈ bs, x < 256 := fun x hx => hb x (List.mem_cons_of_mem b hx)
    simp only [decode, List.map_cons] at ih ⊢
    rw [byte_xor_involutive b key hb0 hk]
    rw [ih hbs]

/-- Witness for C9: the stage-4 payload and its key `0xaa`. -/
theorem c9_decode_involutive_witness :
    decode (decode stage4Wasm 0xaa) 0xaa = stage4Wasm :=
  c9_decode_involutive stage4Wasm 0xaa (by decide) (by decide)

/-- C10: `g_func_ptr` starts null, `main` assigns it only when the launch
contract (`argc == 1` and `argv[0] == "./this.program"`) passes, resets
never touch it, and a stage-1 input processed with the guard clean while
it is still null reaches the indirect call through the null pointer: the
call is undefined (traps) and no stage transition occurs. -/
theorem c10_null_dispatch (v : Nat) (env : GuardEnv) (s : SysState)
    (hp : env.paused = false) (hg : s.gFuncPtr = false) :
    initState.gFuncPtr = false ∧
    (∀ (a : Nat) (b : String) (s' : SysState), ¬(a = 1 ∧ b = "./this.program") →
      (mainInit a b s').gFuncPtr = s'.gFuncPtr) ∧
    (∀ (e : GuardEnv) (s' : SysState), (hello e s').gFuncPtr = s'.gFuncPtr) ∧
    syscall80 v env s = none := by
  refine ⟨rfl, ?_, ?_, ?_⟩
  · intro a b s' hab
    rw [mainInit, if_pos (by tauto)]
  · intro e s'
    exact hello_gFuncPtr e s'
  · simp [syscall80, debugger_check, hp, hg]

/-- Witness for C10: digit 1 with a clean guard, fed after the pre-main
`hello` installed the stage-1 hook but with `main` never having run. -/
theorem c10_null_dispatch_witness :
    syscall80 1 (cleanAt 0) (hello (cleanAt 0) initState) = none :=
  (c10_null_dispatch 1 (cleanAt 0) (hello (cleanAt 0) initState) rfl rfl).2.2.2
